import Mathlib

/-!
Verification of the native-library dependency and link-order resolution
subsystem (bin/ice/library.py): the library catalogue, the registry with its
derived trigger indices, the dependency-edge construction feeding the
topological ranker, the link-order comparator, and the on-disk artifact
locator with its versioned-wildcard fallback.

Machine integers do not occur; Python strings are modelled as `String`
(code-point lexicographic order on both sides), Python floats arising from
`float(version)` as exact decimal rationals kept unreduced (an integer
numerator over a power-of-ten denominator, compared by cross-multiplication;
the version literals compared here are small plain decimals), and `sys.exit`
as `Except.error`.
-/

namespace Ice

/-- Link types: STATIC = 1, DYNAMIC = 2, FRAMEWORK = 3 (library.py lines 15-17). -/
inductive LibType where
  | STATIC
  | DYNAMIC
  | FRAMEWORK
deriving DecidableEq, Repr

/-- One record of the library catalogue (class Library, library.py lines 19-70). -/
structure Library where
  name : String
  type : LibType
  releaseLib : Option String
  debugLib : Option String
  releaseFramework : Option String
  debugFramework : Option String
  headerList : List String
  symbolList : List String
  dependsOnList : List String
  deploy : Bool
deriving DecidableEq, Repr

/-- Library.__init__ (library.py lines 50-67): all fields stored as passed,
except that a STATIC library is never deployed, so the deploy argument is
overwritten with false in that case. The source defaults deploy to True;
callers omitting it are transcribed passing true. -/
def mkLibrary (name : String) (type : LibType)
    (releaseLib debugLib releaseFramework debugFramework : Option String)
    (headerList symbolList dependsOnList : List String) (deploy : Bool) : Library :=
  ⟨name, type, releaseLib, debugLib, releaseFramework, debugFramework,
    headerList, symbolList, dependsOnList,
    if type = LibType.STATIC then false else deploy⟩

/-- Platform-conditional dependency list (library.py lines 111-126). -/
def maybeG3DX11 (isOSX : Bool) : List String :=
  if isOSX then [] else ["X11"]

/-- Platform-conditional dependency list (library.py lines 111-126). -/
def maybeGLFWX11 (isOSX : Bool) : List String :=
  if isOSX then [] else ["X11", "Xrandr", "Xi", "Xxf86vm", "Xcursor", "Xinerama", "dl"]

/-- Platform-conditional dependency list (library.py lines 111-126). -/
def maybeGLFWOSX (isOSX : Bool) : List String :=
  if isOSX then ["IOKit", "CoreVideo", "Cocoa", "AppleGL"] else []

/-- Platform-conditional dependency list (library.py lines 111-126). -/
def maybeAppleGL (isOSX : Bool) : List String :=
  if isOSX then ["AppleGL"] else []

/-- Frameworks exist only on OS X (library.py lines 116, 124). -/
def maybeFwk (isOSX : Bool) : LibType :=
  if isOSX then LibType.FRAMEWORK else LibType.DYNAMIC

/-- The FFMPEG dependency list is the same on both platforms (lines 117, 125). -/
def maybeFFMPEG : List String :=
  ["FFMPEG-util", "FFMPEG-codec", "FFMPEG-format", "FFMPEG-swscale", "FFMPEG-filter"]

/-- Platform-conditional dependency list (library.py lines 118, 126). -/
def maybeFMOD (isOSX : Bool) : List String :=
  if isOSX then ["FMOD"] else []

/-- Platform-conditional dependency list (library.py lines 128-133). -/
def maybeEmbree (isARM : Bool) : List String :=
  if isARM then [] else ["embree"]

/-- Platform-conditional dependency list (library.py lines 128-133). -/
def maybePython (isARM : Bool) : List String :=
  if isARM then [] else ["python"]

/-- G3DAppDepend (library.py line 136). -/
def G3DAppDepend (isOSX isARM : Bool) : List String :=
  ["G3D-base", "G3D-gfx", "OpenGL", "GLU", "glfw", "assimp", "glew", "nfd"]
    ++ maybePython isARM ++ maybeFFMPEG ++ maybeAppleGL isOSX ++ maybeG3DX11 isOSX
    ++ maybeFMOD isOSX ++ maybeEmbree isARM

/-- glfwDepend (library.py line 137). -/
def glfwDepend (isOSX : Bool) : List String :=
  maybeGLFWX11 isOSX ++ maybeGLFWOSX isOSX ++ ["pthread"]

/-- The static catalogue (library.py lines 140-196), in source order, each row
built through the constructor. Rows that omit the deploy argument pass the
source default, true. -/
def libraryList (isOSX isARM : Bool) : List Library :=
  [mkLibrary "python" LibType.DYNAMIC (some "python36") (some "python36") none none
      ["Python.h"] [] [] true,
   mkLibrary "SDL" (maybeFwk isOSX) (some "SDL") (some "SDL") (some "SDL") (some "SDL")
      ["SDL.h"] ["SDL_GetMouseState"] ["OpenGL", "Cocoa", "pthread"] true,
   mkLibrary "curses" LibType.DYNAMIC (some "curses") (some "curses") none none
      ["curses.h"] [] [] false,
   mkLibrary "zlib" LibType.DYNAMIC (some "z") (some "z") none none
      ["zlib.h"] ["compress2"] [] false,
   mkLibrary "zip" LibType.STATIC (some "zip") (some "zip") none none
      ["zip.h"] ["zip_close"] ["zlib"] false,
   mkLibrary "glut" (maybeFwk isOSX) (some "glut") (some "glut") (some "GLUT") (some "GLUT")
      ["glut.h"] [] [] false,
   mkLibrary "OpenGL" (maybeFwk isOSX) (some "GL") (some "GL") (some "OpenGL") (some "OpenGL")
      ["gl.h"] ["glBegin", "glVertex3"] [] false,
   mkLibrary "assimp" LibType.STATIC (some "assimp") (some "assimpd") none none
      ["assimp/Importer.hpp"] [] [] false,
   mkLibrary "glfw" LibType.STATIC (some "glfw") (some "glfwd") none none
      ["glfw3.h"] ["glfwCreateWindow", "_glfwCreateWindow"] (glfwDepend isOSX) true,
   mkLibrary "glew" LibType.STATIC (some "glew") (some "glewd") none none
      ["glew.h"] ["_glewGetExtension", "glewGetExtension"] [] true,
   mkLibrary "nfd" LibType.STATIC (some "nfd") (some "nfdd") none none
      ["nfd.h"] ["_NFD_OpenDialog"] [] true,
   mkLibrary "enet" LibType.STATIC (some "enet") (some "enetd") none none
      ["enet.h"] ["enet_host_create"] [] true,
   mkLibrary "sqlite3" LibType.STATIC (some "sqlite3") (some "sqlite3d") none none
      ["sqlite3.h"] [] [] true,
   mkLibrary "freeimage" LibType.STATIC (some "freeimage") (some "freeimaged") none none
      ["FreeImagePlus.h", "FreeImage.h"] [] [] true,
   mkLibrary "GLU" (maybeFwk isOSX) (some "GLU") (some "GLU") none none
      ["glu.h"] ["gluBuild2DMipmaps"] ["OpenGL"] false,
   mkLibrary "Webkit" LibType.FRAMEWORK none none (some "Webkit") (some "Webkit")
      ["Webkit.h"] ["WKWebView", "_OBJC_CLASS_$_WKWebView"] [] false,
   mkLibrary "Cocoa" LibType.FRAMEWORK none none (some "Cocoa") (some "Cocoa")
      ["Cocoa.h"] ["DebugStr"] [] false,
   mkLibrary "Carbon" LibType.FRAMEWORK none none (some "Carbon") (some "Carbon")
      ["Carbon.h"] ["ShowWindow"] [] false,
   mkLibrary "AppleGL" LibType.FRAMEWORK none none (some "AGL") (some "AGL")
      ["agl.h"] ["_aglChoosePixelFormat"] [] false,
   mkLibrary "G3D-base" LibType.STATIC (some "G3D-base") (some "G3D-based") none none
      ["G3D-base.h", "TextInput.h"] []
      (["zlib", "freeimage", "zip", "Cocoa", "pthread", "enet", "tbb", "civetweb"]
        ++ maybeG3DX11 isOSX) true,
   mkLibrary "G3D-gfx" LibType.STATIC (some "G3D-gfx") (some "G3D-gfxd") none none
      ["G3D-gfx.h", "RenderDevice.h"] [] (G3DAppDepend isOSX isARM) true,
   mkLibrary "G3D-app" LibType.STATIC (some "G3D-app") (some "G3D-appd") none none
      ["G3D-app.h", "G3D.h", "RenderDevice.h"] [] (G3DAppDepend isOSX isARM) true,
   mkLibrary "pthread" LibType.DYNAMIC (some "pthread") (some "pthread") none none
      ["pthread.h"] [] [] false,
   mkLibrary "math" LibType.DYNAMIC (some "m") (some "m") none none
      [] [] [] false,
   mkLibrary "QT" LibType.DYNAMIC (some "qt-mt") (some "qt-mt") none none
      ["qobject.h"] [] [] true,
   mkLibrary "CoreVideo" LibType.FRAMEWORK none none (some "CoreVideo") (some "CoreVideo")
      [] [] [] false,
   mkLibrary "QuartzCore" LibType.FRAMEWORK none none (some "QuartzCore") (some "QuartzCore")
      ["QuartzCore.h"] [] [] false,
   mkLibrary "IOKit" LibType.FRAMEWORK none none (some "IOKit") (some "IOKit")
      ["IOHIDKeys.h", "IOKitLib.h", "IOHIDLib.h"] ["IOMasterPort"] [] false,
   mkLibrary "X11" LibType.DYNAMIC (some "X11") (some "X11") none none
      ["x11.h"] ["XSync", "XFlush"] [] false,
   mkLibrary "Xrandr" LibType.DYNAMIC (some "Xrandr") (some "Xrandr") none none
      ["Xrandr.h"] ["XRRQueryExtension"] ["X11"] false,
   mkLibrary "Xi" LibType.DYNAMIC (some "Xi") (some "Xi") none none
      ["XInput2.h"] ["XIQueryVersion"] ["X11"] false,
   mkLibrary "Xcursor" LibType.DYNAMIC (some "Xcursor") (some "Xcursor") none none
      ["Xcursor.h"] [] ["X11"] false,
   mkLibrary "Xxf86vm" LibType.DYNAMIC (some "Xxf86vm") (some "Xxf86vm") none none
      [] [] [] false,
   mkLibrary "Xinerama" LibType.DYNAMIC (some "Xinerama") (some "Xinerama") none none
      [] [] [] false,
   mkLibrary "dl" LibType.DYNAMIC (some "dl") (some "dl") none none
      [] [] [] true,
   mkLibrary "ANN" LibType.STATIC (some "ANN") (some "ANN") none none
      ["ANN.h"] [] [] true,
   mkLibrary "OpenCV" LibType.STATIC (some "cv") (some "cv") none none
      ["cv.h"] [] ["OpenCV-Aux", "OpenCV-Core"] true,
   mkLibrary "OpenCV-Aux" LibType.STATIC (some "cvaux") (some "cvaux") none none
      [] [] ["OpenCV-Core"] true,
   mkLibrary "OpenCV-Core" LibType.STATIC (some "cxcore") (some "cxcore") none none
      [] [] [] true,
   mkLibrary "FMOD" LibType.DYNAMIC (some "fmod") (some "fmod") none none
      ["fmod.hpp", "fmod.h"] [] ["FFMPEG-codec", "FFMPEG-util"] true,
   mkLibrary "mongoose" LibType.STATIC (some "mongoose") (some "mongoose") none none
      ["mongoose.h"] [] [] true,
   mkLibrary "civetweb" LibType.STATIC (some "civetweb") (some "civetweb") none none
      ["civetweb.h"] [] [] true,
   mkLibrary "qrencode" LibType.STATIC (some "qrencode") (some "qrencode") none none
      ["qrencode.h"] ["_QRcode_encodeData"] [] true,
   mkLibrary "irrKlang" LibType.DYNAMIC (some "irrklang") (some "irrklang") none none
      ["irrKlang.h"] ["createIrrKlangDevice"] [] true,
   mkLibrary "ply" LibType.STATIC (some "ply") (some "ply") none none
      ["ply.hpp"] ["ply::ply_parser::parse"] [] true,
   mkLibrary "tbbmalloc" LibType.DYNAMIC (some "tbbmalloc") (some "tbbmalloc") none none
      ["tbb.h"] [] [] true,
   mkLibrary "embree" LibType.DYNAMIC (some "embree") (some "embree") none none
      ["embree.h"] [] [] true,
   mkLibrary "tbb" LibType.DYNAMIC (some "tbb") (some "tbb") none none
      ["tbb.h"] [] ["tbb"] true,
   mkLibrary "FFMPEG-util" LibType.DYNAMIC (some "avutil") (some "avutil") none none
      ["avutil.h"] ["av_malloc"] [] true,
   mkLibrary "FFMPEG-resample" LibType.DYNAMIC (some "swresample") (some "swresample") none none
      [] [] [] true,
   mkLibrary "FFMPEG-codec" LibType.DYNAMIC (some "avcodec") (some "avcodec") none none
      ["avcodec.h"] ["avcodec_open"] ["zlib", "FFMPEG-resample"] true,
   mkLibrary "FFMPEG-format" LibType.DYNAMIC (some "avformat") (some "avformat") none none
      ["avformat.h"] ["av_register_all"] ["FFMPEG-util"] true,
   mkLibrary "FFMPEG-swscale" LibType.DYNAMIC (some "swscale") (some "swscale") none none
      ["swscale.h"] ["sws_scale"] ["FFMPEG-util"] true,
   mkLibrary "FFMPEG-filter" LibType.DYNAMIC (some "avfilter") (some "avfilter") none none
      ["avfiltergraph.h"] ["avfilter_graph_create_filter"]
      ["FFMPEG-util", "FFMPEG-swscale"] true]

/-! ## Registry (defineLibrary, library.py lines 74-103)

The three process-wide dicts are modelled as association lists in insertion
order; `sys.exit(-1)` on a duplicate name is modelled as `Except.error`
carrying the printed message, returned before any table is touched. -/

/-- The registry: libraryTable, headerToLibraryTable, symbolToLibraryTable
(library.py lines 74-80). -/
structure Registry where
  libraryTable : List (String × Library)
  headerToLibraryTable : List (String × List String)
  symbolToLibraryTable : List (String × List String)
deriving DecidableEq, Repr

/-- Append a canonical name to a trigger key's list, creating the entry when the
key is new (library.py lines 93-103, one loop iteration). -/
def addTrigger (table : List (String × List String)) (key name : String) :
    List (String × List String) :=
  if table.any (fun kv => decide (kv.1 = key)) then
    table.map (fun kv => if kv.1 = key then (kv.1, kv.2 ++ [name]) else kv)
  else
    table ++ [(key, [name])]

/-- defineLibrary (library.py lines 82-103): a duplicate canonical name aborts
before any state is written; otherwise the record is inserted and both derived
indices gain the name for every declared trigger. -/
def defineLibrary (r : Registry) (lib : Library) : Except String Registry :=
  if r.libraryTable.any (fun kv => decide (kv.1 = lib.name)) then
    Except.error ("ERROR: Library " ++ lib.name ++ " defined twice.")
  else
    Except.ok
      ⟨r.libraryTable ++ [(lib.name, lib)],
       lib.headerList.foldl (fun t h => addTrigger t h lib.name) r.headerToLibraryTable,
       lib.symbolList.foldl (fun t s => addTrigger t s lib.name) r.symbolToLibraryTable⟩

/-! ## Dependency graph and rank table (_makeLibOrder, library.py lines 203-229) -/

/-- The (parent, child) pairs read off every registered library's dependsOnList
(library.py lines 207-211), in table order. -/
def dependsOnPairs (libs : List Library) : List (String × String) :=
  libs.foldr (fun lib acc => lib.dependsOnList.map (fun c => (lib.name, c)) ++ acc) []

/-- The curated linker-order edge list (library.py lines 214-220). -/
def curatedPairs : List (String × String) :=
  [("G3D-app", "G3D-gfx"), ("G3D-gfx", "G3D-base"), ("G3D-base", "Cocoa"),
   ("Cocoa", "SDL"), ("SDL", "OpenGL"), ("GLU", "OpenGL"), ("G3D-gfx", "glew"),
   ("G3D-app", "GLU"), ("G3D-base", "zlib"), ("G3D-base", "zip"),
   ("G3D-base", "freeimage"), ("Cocoa", "pthread"), ("G3D-base", "enet"),
   ("embree", "tbb"), ("Cocoa", "zlib"), ("OpenGL", "pthread"), ("Cocoa", "Carbon"),
   ("FFMPEG-format", "FFMPEG-codec"), ("FFMPEG-codec", "FFMPEG-util"),
   ("FFMPEG-format", "zlib"), ("G3D-app", "FFMPEG-format"), ("glfw", "X11"),
   ("glfw", "Xrandr"), ("glfw", "Xi"), ("glfw", "Xcursor"), ("G3D-base", "X11"),
   ("G3D-gfx", "glfw"), ("G3D-app", "assimp"), ("glfw", "Xxf86vm")]

/-- The edge list `_makeLibOrder` actually hands to the topological sort: the
source first accumulates the dependsOn pairs into `pairs` (lines 207-211) and
then rebinds `pairs` to the curated list (line 214 is a plain assignment, not
an append), so the dependsOn-derived pairs are discarded. -/
def makeLibOrderPairs (libs : List Library) : List (String × String) :=
  let _pairs := dependsOnPairs libs
  curatedPairs

/-- Keep the first occurrence of each name, in order: deterministic vertex
list for the graph. -/
def dedupNamesAux (seen : List String) : List String → List String
  | [] => []
  | x :: rest =>
    if x ∈ seen then dedupNamesAux seen rest else x :: dedupNamesAux (x :: seen) rest

/-- Modelled from the spec: `pairsToVertexEdgeGraph` lives in topsort.py, which
is not among the repository files. Per section 4.2 of the design, the vertex
set is every name appearing as an endpoint of an edge and the edge set is the
(parent, child) pairs, deduplicated; first occurrences fix the deterministic
order. (No registry is passed at the call site, so only edge endpoints can
contribute vertices.) -/
def pairsToVertexEdgeGraph (pairs : List (String × String)) :
    List (String × String) × List String :=
  (pairs.eraseDups, dedupNamesAux [] (pairs.foldr (fun e acc => e.1 :: e.2 :: acc) []))

/-- A vertex is ready when no remaining vertex has an edge into it. -/
def readyVertex (E : List (String × String)) (rem : List String) (v : String) : Bool :=
  E.all (fun e => !(decide (e.2 = v) && rem.any (fun w => decide (w = e.1))))

/-- One Kahn step: the first remaining vertex with no incoming edge. -/
def pickReady (E : List (String × String)) (rem : List String) : Option String :=
  rem.find? (readyVertex E rem)

/-- Fuel-indexed Kahn loop; fuel = number of vertices suffices for a DAG. -/
def topSortAux (E : List (String × String)) : Nat → List String → List String
  | 0, _ => []
  | fuel + 1, rem =>
    match pickReady E rem with
    | none => []
    | some v => v :: topSortAux E fuel (rem.filter (fun w => decide (w ≠ v)))

/-- Modelled from the spec: `topSort` lives in topsort.py, which is not among
the repository files. Per section 4.3 of the design it is any correct
topological sort with a deterministic vertex visitation order; modelled as
Kahn's algorithm taking the first ready vertex in the graph's vertex order.
On a cyclic graph it stops early (the design makes a cycle a fatal
configuration error; the claims here only exercise the acyclic catalogue
graph). -/
def topSort (E : List (String × String)) (V : List String) : List String :=
  topSortAux E V.length V

/-- _makeLibOrder (library.py lines 203-229): rank table mapping each sorted
name to its position. -/
def makeLibOrder (libs : List Library) : List (String × Nat) :=
  let pairs := makeLibOrderPairs libs
  let EV := pairsToVertexEdgeGraph pairs
  let L := topSort EV.1 EV.2
  L.enum.map (fun ie => (ie.2, ie.1))

/-- The rank table used by the sorter. Because `_makeLibOrder` overwrites the
dependsOn pairs with the curated list, the table does not depend on the
platform-conditional catalogue; the non-OSX non-ARM catalogue is passed. -/
def libOrder : List (String × Nat) := makeLibOrder (libraryList false false)

/-- Python dict lookup on an association list built with distinct keys. -/
def rankIn : List (String × Nat) → String → Option Nat
  | [], _ => none
  | (k, v) :: rest, x => if x = k then some v else rankIn rest x

/-- Rank of a canonical name in the frozen table, none when unranked. -/
def rankOf (x : String) : Option Nat := rankIn libOrder x

/-- _libSorter (library.py lines 234-257): three-way comparison; ranked pairs
compare by rank difference, a ranked name sorts after any unranked name, and
two unranked names compare lexicographically. -/
def libSorter (x y : String) : Int :=
  match rankOf x, rankOf y with
  | some rx, some ry => (rx : Int) - (ry : Int)
  | some _, none => 1
  | none, some _ => -1
  | none, none => (if x > y then (1 : Int) else 0) - (if x < y then (1 : Int) else 0)

/-- The non-strict order induced by the comparator: x may precede y. Python's
stable sort consumes `cmp2key(_libSorter)`, whose only comparison is
`cmp < 0`; x stays before y exactly when `libSorter x y <= 0`. -/
def leLib (x y : String) : Prop := libSorter x y ≤ 0

instance : DecidableRel leLib :=
  fun x y => inferInstanceAs (Decidable (libSorter x y ≤ 0))

/-- sortLibraries (library.py lines 273-277): sorts the list with the
comparator. The source's in-place Python sort is stable for `leLib`, and
`leLib` is total, transitive and antisymmetric (proved below), so the sorted
permutation is unique and any correct sort computes it; insertion sort is
used as the executable model. -/
def sortLibraries (liblist : List String) : List String :=
  List.insertionSort leLib liblist

/-! ## Order-theoretic facts about the comparator -/

/-- A successful dict lookup exhibits the key-value pair as an entry. -/
theorem rankIn_mem : ∀ {l : List (String × Nat)} {x : String} {r : Nat},
    rankIn l x = some r → (x, r) ∈ l
  | [], x, r, h => by simp [rankIn] at h
  | (k, v) :: rest, x, r, h => by
    rw [rankIn] at h
    split at h
    · next hx =>
      cases h
      subst hx
      exact List.mem_cons_self _ _
    · next hx => exact List.mem_cons_of_mem _ (rankIn_mem h)

/-- When the table's values are distinct, a value determines its key. -/
theorem mem_snd_inj : ∀ {l : List (String × Nat)}, (l.map Prod.snd).Nodup →
    ∀ {x y : String} {r : Nat}, (x, r) ∈ l → (y, r) ∈ l → x = y
  | [], _, x, y, r, hx, _ => by cases hx
  | kv :: rest, hnd, x, y, r, hx, hy => by
    rw [List.map_cons, List.nodup_cons] at hnd
    rcases List.mem_cons.mp hx with hx1 | hx2 <;> rcases List.mem_cons.mp hy with hy1 | hy2
    · have : (x, r) = (y, r) := hx1.trans hy1.symm
      exact (Prod.mk.injEq .. ▸ this).1
    · refine absurd ?_ hnd.1
      rw [← hx1]
      exact (List.mem_map_of_mem Prod.snd hy2 : (y, r).2 ∈ rest.map Prod.snd)
    · refine absurd ?_ hnd.1
      rw [← hy1]
      exact (List.mem_map_of_mem Prod.snd hx2 : (x, r).2 ∈ rest.map Prod.snd)
    · exact mem_snd_inj hnd.2 hx2 hy2

/-- The ranks the topological ranker assigns are pairwise distinct. -/
theorem libOrder_snd_nodup : (libOrder.map Prod.snd).Nodup := by decide

/-- The unranked-versus-unranked branch of the comparator is the lexicographic
order on canonical names. -/
theorem strCmpLe (x y : String) :
    ((if x > y then (1 : Int) else 0) - (if x < y then (1 : Int) else 0) ≤ 0) ↔ x ≤ y := by
  rcases lt_trichotomy x y with h | h | h
  · simp [h, lt_asymm h, le_of_lt h, gt_iff_lt]
  · subst h
    simp [lt_irrefl]
  · simp [h, lt_asymm h, not_le.mpr h, gt_iff_lt]

/-- On two ranked names the comparator orders by rank. -/
theorem leLib_iff_rank {x y : String} {rx ry : Nat}
    (hx : rankOf x = some rx) (hy : rankOf y = some ry) : leLib x y ↔ rx ≤ ry := by
  unfold leLib libSorter
  rw [hx, hy]
  dsimp only
  constructor <;> intro h <;> omega

/-- An unranked name may precede any ranked name. -/
theorem leLib_of_none_some {x y : String} {ry : Nat}
    (hx : rankOf x = none) (hy : rankOf y = some ry) : leLib x y := by
  unfold leLib libSorter
  rw [hx, hy]
  dsimp only
  omega

/-- A ranked name never precedes an unranked one. -/
theorem not_leLib_of_some_none {x y : String} {rx : Nat}
    (hx : rankOf x = some rx) (hy : rankOf y = none) : ¬ leLib x y := by
  unfold leLib libSorter
  rw [hx, hy]
  dsimp only
  omega

/-- On two unranked names the comparator is the lexicographic order. -/
theorem leLib_iff_str {x y : String}
    (hx : rankOf x = none) (hy : rankOf y = none) : leLib x y ↔ x ≤ y := by
  unfold leLib libSorter
  rw [hx, hy]
  dsimp only
  exact strCmpLe x y

/-- The comparator's order is total. -/
theorem leLib_total : ∀ x y : String, leLib x y ∨ leLib y x := by
  intro x y
  cases hx : rankOf x with
  | some rx =>
    cases hy : rankOf y with
    | some ry =>
      rcases Nat.le_total rx ry with h | h
      · exact Or.inl ((leLib_iff_rank hx hy).mpr h)
      · exact Or.inr ((leLib_iff_rank hy hx).mpr h)
    | none => exact Or.inr (leLib_of_none_some hy hx)
  | none =>
    cases hy : rankOf y with
    | some ry => exact Or.inl (leLib_of_none_some hx hy)
    | none =>
      rcases le_total x y with h | h
      · exact Or.inl ((leLib_iff_str hx hy).mpr h)
      · exact Or.inr ((leLib_iff_str hy hx).mpr h)

/-- The comparator's order is transitive. -/
theorem leLib_trans : ∀ x y z : String, leLib x y → leLib y z → leLib x z := by
  intro x y z hxy hyz
  cases hx : rankOf x with
  | some rx =>
    cases hy : rankOf y with
    | some ry =>
      cases hz : rankOf z with
      | some rz =>
        exact (leLib_iff_rank hx hz).mpr
          (le_trans ((leLib_iff_rank hx hy).mp hxy) ((leLib_iff_rank hy hz).mp hyz))
      | none => exact absurd hyz (not_leLib_of_some_none hy hz)
    | none => exact absurd hxy (not_leLib_of_some_none hx hy)
  | none =>
    cases hz : rankOf z with
    | some rz => exact leLib_of_none_some hx hz
    | none =>
      cases hy : rankOf y with
      | some ry => exact absurd hyz (not_leLib_of_some_none hy hz)
      | none =>
        exact (leLib_iff_str hx hz).mpr
          (le_trans ((leLib_iff_str hx hy).mp hxy) ((leLib_iff_str hy hz).mp hyz))

/-- The comparator's order is antisymmetric: it never declares two distinct
names equivalent, which is what makes the sorted output unique. -/
theorem leLib_antisymm : ∀ x y : String, leLib x y → leLib y x → x = y := by
  intro x y hxy hyx
  cases hx : rankOf x with
  | some rx =>
    cases hy : rankOf y with
    | some ry =>
      have hr : rx = ry :=
        Nat.le_antisymm ((leLib_iff_rank hx hy).mp hxy) ((leLib_iff_rank hy hx).mp hyx)
      exact mem_snd_inj libOrder_snd_nodup (rankIn_mem hx) (hr ▸ rankIn_mem hy)
    | none => exact absurd hxy (not_leLib_of_some_none hx hy)
  | none =>
    cases hy : rankOf y with
    | some ry => exact absurd hyx (not_leLib_of_some_none hy hx)
    | none =>
      exact le_antisymm ((leLib_iff_str hx hy).mp hxy) ((leLib_iff_str hy hx).mp hyx)

instance : IsTotal String leLib := ⟨leLib_total⟩

instance : IsTrans String leLib := ⟨leLib_trans⟩

instance : IsAntisymm String leLib := ⟨leLib_antisymm⟩

/-! ## Artifact locator (findLibrary, library.py lines 285-340)

The filesystem-probe capability (os.path.exists and glob.glob over the search
directories) is modelled as a directory-to-filenames map; `glob.glob` on the
pattern `lib<name>-*<ext>` keeps the directory entries that start with
`lib<name>-` and end with `<ext>`. Python's `float(version)` is modelled
exactly on plain decimal literals (optional sign, digits, at most one dot),
the only shape a version suffix takes; any other string fails to parse, as in
the source's ValueError branch. -/

/-- Directory contents visible to the locator's probes. -/
structure FileSystem where
  dirs : List (String × List String)
deriving DecidableEq, Repr

/-- Modelled from the spec: `pathConcat` lives in utils.py, which is not among
the repository files; it joins a directory and a file name with the path
separator. -/
def pathConcat (dir file : String) : String := dir ++ "/" ++ file

/-- The entries of one search directory, empty when the directory is absent. -/
def listDir (fs : FileSystem) : List (String × List String) → String → List String
  | [], _ => []
  | (d, files) :: rest, dir => if dir = d then files else listDir fs rest dir

/-- os.path.exists on a directory entry. -/
def fileIn (fs : FileSystem) (dir file : String) : Bool :=
  (listDir fs fs.dirs dir).any (fun f => decide (f = file))

/-- fnmatch of a directory entry against `<pre>*<ext>` (the star may be empty
and directory entries contain no path separator). -/
def globMatch (pre ext file : String) : Bool :=
  decide (file.toList.take pre.length = pre.toList)
    && decide (file.toList.drop (file.length - ext.length) = ext.toList)
    && Nat.ble (pre.length + ext.length) file.length

/-- glob.glob of `dir/<pre>*<ext>`: matching entries of `dir` as full paths,
in directory order. -/
def globDir (fs : FileSystem) (dir pre ext : String) : List String :=
  ((listDir fs fs.dirs dir).filter (globMatch pre ext)).map (pathConcat dir)

/-- Index of the last occurrence of a character, as Python rfind over the
given character list. -/
def rlast (c : Char) : List Char → Option Nat
  | [] => none
  | a :: rest =>
    match rlast c rest with
    | some i => some (i + 1)
    | none => if a = c then some 0 else none

/-- Decimal digit string to a number (the strings fed here are checked to be
all digits first). -/
def digitsToNat (cs : List Char) : Nat :=
  cs.foldl (fun a c => a * 10 + (c.toNat - 48)) 0

/-- An exact decimal value num/den with den a positive power of ten, kept
unreduced: the value a Python float literal denotes. Comparisons
cross-multiply, which agrees with the rational order since every constructed
denominator is positive. -/
structure DecVal where
  num : Int
  den : Nat
deriving DecidableEq, Repr

/-- Strict numeric order on exact decimals. -/
def DecVal.lt (a b : DecVal) : Prop := a.num * (b.den : Int) < b.num * (a.den : Int)

instance : LT DecVal := ⟨DecVal.lt⟩

instance (a b : DecVal) : Decidable (a < b) :=
  inferInstanceAs (Decidable (a.num * (b.den : Int) < b.num * (a.den : Int)))

/-- The numeric zero the wildcard search starts from (bestVersion = 0). -/
def decZero : DecVal := ⟨0, 1⟩

/-- Powers of ten for fractional denominators. -/
def pow10 : Nat → Nat
  | 0 => 1
  | n + 1 => 10 * pow10 n

/-- The unsigned part of Python float parsing on a plain decimal literal:
digits with at most one dot and at least one digit; `a.b` denotes
(a*10^k + b)/10^k for k fractional digits. -/
def parseUnsigned (cs : List Char) : Option DecVal :=
  let ip := cs.takeWhile (fun c => decide (c ≠ '.'))
  let rest := cs.dropWhile (fun c => decide (c ≠ '.'))
  match rest with
  | [] =>
    if ip ≠ [] ∧ ip.all Char.isDigit then some ⟨(digitsToNat ip : Int), 1⟩ else none
  | _ :: frac =>
    if ip.all Char.isDigit ∧ frac.all Char.isDigit ∧ (ip ≠ [] ∨ frac ≠ []) then
      some ⟨(digitsToNat ip * pow10 frac.length + digitsToNat frac : Int), pow10 frac.length⟩
    else none

/-- Python float() on the version substrings cut out of filenames. -/
def parseFloat (s : String) : Option DecVal :=
  match s.toList with
  | '-' :: rest => (parseUnsigned rest).map (fun v => ⟨-v.num, v.den⟩)
  | '+' :: rest => parseUnsigned rest
  | cs => parseUnsigned cs

/-- The version-parsing step of the wildcard loop (library.py lines 322-333):
`i = file.rfind('-', 0, -2)`, then `float(file[i+1:-3])`; none when no dash is
found or the slice is not a float literal. The `-3` hard-codes a
three-character extension. -/
def parsedVersion (file : String) : Option DecVal :=
  let cs := file.toList
  match rlast '-' (cs.take (cs.length - 2)) with
  | none => none
  | some i => parseFloat (String.mk ((cs.drop (i + 1)).take (cs.length - 3 - (i + 1))))

/-- One file of the wildcard loop body (library.py lines 320-333): keep the
candidate exactly when its parsed version strictly exceeds the best so far
(which starts at 0). -/
def chooseBest (best : DecVal × Option String) (file : String) : DecVal × Option String :=
  match parsedVersion file with
  | some v => if best.1 < v then (v, some file) else best
  | none => best

/-- The wildcard phase over all search directories (library.py lines 312-333).
The source builds `wildlfile2` from `ext`, not `ext2` (line 310, guarded by
the always-true `ext != None`), so the primary-extension pattern is globbed
twice per directory and the fallback extension is never probed here. -/
def wildcardScan (fs : FileSystem) (pre ext : String) (paths : List String) :
    DecVal × Option String :=
  paths.foldl
    (fun best path => (globDir fs path pre ext ++ globDir fs path pre ext).foldl chooseBest best)
    (decZero, none)

/-- The primary extension (library.py lines 286-292): `.a` unless DYNAMIC,
then `.so`, or `.dylib` on Darwin. -/
def extOf (type : LibType) (isDarwin : Bool) : String :=
  if type = LibType.DYNAMIC then (if isDarwin then ".dylib" else ".so") else ".a"

/-- The fallback extension (library.py line 293): only `.so`, only for
DYNAMIC on Darwin. -/
def ext2Of (type : LibType) (isDarwin : Bool) : Option String :=
  if type = LibType.DYNAMIC then (if isDarwin then some ".so" else none) else none

/-- The exact-stem probe over the search directories in order (library.py
lines 300-304): primary stem first, then the fallback stem, per directory. -/
def findExact (fs : FileSystem) (lfile : String) (lfile2 : Option String) :
    List String → Option String
  | [] => none
  | p :: rest =>
    if fileIn fs p lfile then some (pathConcat p lfile)
    else
      match lfile2 with
      | some l2 =>
        if fileIn fs p l2 then some (pathConcat p l2) else findExact fs lfile lfile2 rest
      | none => findExact fs lfile lfile2 rest

/-- findLibrary (library.py lines 285-340): exact-stem search, then the
versioned-wildcard search, then the unresolved generic stem. The host check
`os.uname()[0] == 'Darwin'` is the isDarwin parameter. -/
def findLibrary (name : String) (type : LibType) (isDarwin : Bool)
    (libraryPaths : List String) (fs : FileSystem) : String :=
  match findExact fs ("lib" ++ name ++ extOf type isDarwin)
      ((ext2Of type isDarwin).map (fun e => "lib" ++ name ++ e)) libraryPaths with
  | some found => found
  | none =>
    match (wildcardScan fs ("lib" ++ name ++ "-") (extOf type isDarwin) libraryPaths).2 with
    | some best => best
    | none => "lib" ++ name ++ extOf type isDarwin

/-- When neither expected stem is present in any search directory, the
exact-stem probe finds nothing. -/
theorem findExact_eq_none (fs : FileSystem) (lfile : String) (lfile2 : Option String) :
    ∀ paths : List String,
      (∀ p ∈ paths, fileIn fs p lfile = false) →
      (∀ p ∈ paths, ∀ l2, lfile2 = some l2 → fileIn fs p l2 = false) →
      findExact fs lfile lfile2 paths = none := by
  intro paths
  induction paths with
  | nil => intro _ _; rfl
  | cons p rest ih =>
    intro h1 h2
    have hp := h1 p (List.mem_cons_self ..)
    have ihr := ih (fun q hq => h1 q (List.mem_cons_of_mem _ hq))
      (fun q hq => h2 q (List.mem_cons_of_mem _ hq))
    rw [findExact.eq_def]
    cases hl2 : lfile2 with
    | none =>
      rw [hl2] at ihr
      simp [hp, ihr]
    | some l2 =>
      have hp2 := h2 p (List.mem_cons_self ..) l2 hl2
      rw [hl2] at ihr
      simp [hp, hp2, ihr]

/-- A file whose parsed version is not strictly positive never displaces the
initial best (bestVersion = 0, bestFile = None). -/
theorem chooseBest_stays {f : String}
    (h : ∀ v, parsedVersion f = some v → v.num ≤ 0) :
    chooseBest (decZero, none) f = (decZero, none) := by
  unfold chooseBest
  cases hv : parsedVersion f with
  | none => rfl
  | some v =>
    have hnum := h v hv
    have hlt : ¬ (decZero < v) := by
      show ¬ DecVal.lt decZero v
      unfold DecVal.lt decZero
      simp
      omega
    simp [hlt]

/-- Folding the wildcard loop body over candidates that all parse to a
non-positive version (or fail to parse) keeps the initial best. -/
theorem foldl_chooseBest_stays :
    ∀ files : List String,
      (∀ f ∈ files, ∀ v, parsedVersion f = some v → v.num ≤ 0) →
      files.foldl chooseBest (decZero, none) = (decZero, none) := by
  intro files
  induction files with
  | nil => intro _; rfl
  | cons f rest ih =>
    intro h
    rw [List.foldl_cons, chooseBest_stays (h f (List.mem_cons_self ..))]
    exact ih (fun g hg => h g (List.mem_cons_of_mem _ hg))

/-- The whole wildcard phase keeps (0, None) when every candidate in every
search directory parses to a non-positive version or fails to parse. -/
theorem wildcardScan_stays (fs : FileSystem) (pre ext : String) :
    ∀ paths : List String,
      (∀ p ∈ paths, ∀ f ∈ globDir fs p pre ext, ∀ v, parsedVersion f = some v → v.num ≤ 0) →
      wildcardScan fs pre ext paths = (decZero, none) := by
  intro paths
  induction paths with
  | nil => intro _; rfl
  | cons p rest ih =>
    intro h
    have hdir : ∀ f ∈ globDir fs p pre ext ++ globDir fs p pre ext, ∀ v,
        parsedVersion f = some v → v.num ≤ 0 := by
      intro f hf
      rcases List.mem_append.mp hf with hf | hf <;>
        exact h p (List.mem_cons_self ..) f hf
    unfold wildcardScan
    rw [List.foldl_cons, foldl_chooseBest_stays _ hdir]
    exact ih (fun q hq => h q (List.mem_cons_of_mem _ hq))

/-! ## The claims -/

/-- C1, counterexample: the dependsOn-derived edge (zip, zlib) — zip's
dependsOnList is ["zlib"] on every platform — is not among the pairs
`_makeLibOrder` hands to the topological sort, because line 214 rebinds
`pairs` to the curated list instead of appending to it. -/
theorem claimC1_cex :
    ("zip", "zlib") ∈ dependsOnPairs (libraryList false false) ∧
    ("zip", "zlib") ∉ makeLibOrderPairs (libraryList false false) :=
  ⟨by decide, by decide⟩

/-- C1, amended: on every platform the edge list handed to the topological
sort is exactly the curated list; the dependsOn-derived pairs (which do
contain (zip, zlib)) are computed and then discarded by the rebinding. -/
theorem claimC1 (isOSX isARM : Bool) :
    makeLibOrderPairs (libraryList isOSX isARM) = curatedPairs ∧
    ("zip", "zlib") ∈ dependsOnPairs (libraryList isOSX isARM) ∧
    ("zip", "zlib") ∉ makeLibOrderPairs (libraryList isOSX isARM) := by
  refine ⟨rfl, ?_, ?_⟩
  · cases isOSX <;> cases isARM <;> decide
  · show ("zip", "zlib") ∉ curatedPairs
    decide

/-- C2: on a Darwin-style platform (primary extension .dylib, fallback .so),
with a directory holding exactly libfoo-2.3.dylib and libfoo-1.0.dylib and no
exact-stem match, findLibrary returns the generic stem libfoo.dylib, not the
path to libfoo-2.3.dylib: the version slice `file[i+1:-3]` hard-codes a
three-character extension, so both candidates parse as "2.3.dy"/"1.0.dy" and
fail float(), leaving bestFile = None. -/
theorem claimC2_eval :
    findLibrary "foo" LibType.DYNAMIC true ["d"]
      ⟨[("d", ["libfoo-2.3.dylib", "libfoo-1.0.dylib"])]⟩ = "libfoo.dylib" ∧
    parsedVersion "d/libfoo-2.3.dylib" = none ∧
    parsedVersion "d/libfoo-1.0.dylib" = none :=
  ⟨by decide, by decide, by decide⟩

/-- C3: in the versioned-wildcard phase the fallback extension is never
probed: on Darwin with only libfoo-2.5.so present, the file matches the
fallback pattern and its version parses as 25/10 > 0, yet findLibrary returns
the generic stem because line 310 builds wildlfile2 from ext (".dylib")
rather than ext2 (".so"), so no .so candidate is ever globbed. -/
theorem claimC3_eval :
    findLibrary "foo" LibType.DYNAMIC true ["d"] ⟨[("d", ["libfoo-2.5.so"])]⟩
      = "libfoo.dylib" ∧
    globDir ⟨[("d", ["libfoo-2.5.so"])]⟩ "d" "libfoo-" ".so" = ["d/libfoo-2.5.so"] ∧
    parsedVersion "d/libfoo-2.5.so" = some ⟨25, 10⟩ :=
  ⟨by decide, by decide, by decide⟩

/-- C4: sorting canonical library names is invariant under permutation of the
input, and the output is a permutation (same multiset) of the input: the
comparator is a total, transitive, antisymmetric order, so the sorted list is
the unique sorted permutation of the input's multiset. -/
theorem claimC4 (l l' : List String) (h : l.Perm l') :
    sortLibraries l = sortLibraries l' ∧ (sortLibraries l).Perm l := by
  refine ⟨?_, List.perm_insertionSort leLib l⟩
  exact List.eq_of_perm_of_sorted
    (((List.perm_insertionSort leLib l).trans h).trans
      (List.perm_insertionSort leLib l').symm)
    (List.sorted_insertionSort leLib l) (List.sorted_insertionSort leLib l')

/-- C4 witness at a concrete permutation pair of ranked names. -/
theorem claimC4_witness :
    sortLibraries ["glew", "zlib"] = sortLibraries ["zlib", "glew"] ∧
    (sortLibraries ["glew", "zlib"]).Perm ["glew", "zlib"] :=
  claimC4 ["glew", "zlib"] ["zlib", "glew"] (by decide)

/-- C5: in sortLibraries output, once a ranked name appears every later name
is ranked too (equivalently, every unranked name precedes every ranked name);
two unranked names appear in lexicographic order; two ranked names appear in
ascending rank order. -/
theorem claimC5 (l : List String) :
    (sortLibraries l).Pairwise (fun x y =>
      ((rankOf x).isSome → (rankOf y).isSome) ∧
      (rankOf x = none → rankOf y = none → x ≤ y) ∧
      (∀ a b : Nat, rankOf x = some a → rankOf y = some b → a ≤ b)) := by
  refine List.Pairwise.imp ?_ (List.sorted_insertionSort leLib l)
  intro x y hxy
  refine ⟨?_, ?_, ?_⟩
  · intro hx
    cases hy : rankOf y with
    | some ry => rfl
    | none =>
      obtain ⟨a, ha⟩ := Option.isSome_iff_exists.mp hx
      exact absurd hxy (not_leLib_of_some_none ha hy)
  · intro hx hy
    exact (leLib_iff_str hx hy).mp hxy
  · intro a b ha hb
    exact (leLib_iff_rank ha hb).mp hxy

/-- C6: the computed rank table is a linear extension of the graph fed to the
topological sort — every edge's parent ranks strictly below its child — and
resolving [zlib, G3D-base, G3D-app, G3D-gfx] yields
[G3D-app, G3D-gfx, G3D-base, zlib]. -/
theorem claimC6 :
    (∀ e ∈ makeLibOrderPairs (libraryList false false),
      ∃ rp rc : Nat, rankOf e.1 = some rp ∧ rankOf e.2 = some rc ∧ rp < rc) ∧
    sortLibraries ["zlib", "G3D-base", "G3D-app", "G3D-gfx"]
      = ["G3D-app", "G3D-gfx", "G3D-base", "zlib"] := by
  constructor
  · have hall : ∀ e ∈ makeLibOrderPairs (libraryList false false),
        (match rankOf e.1, rankOf e.2 with
         | some a, some b => decide (a < b)
         | _, _ => false) = true := by decide
    intro e he
    have hlt := hall e he
    cases ha : rankOf e.1 with
    | none => rw [ha] at hlt; cases hlt
    | some rp =>
      cases hb : rankOf e.2 with
      | none => rw [ha, hb] at hlt; cases hlt
      | some rc =>
        rw [ha, hb] at hlt
        exact ⟨rp, rc, rfl, rfl, of_decide_eq_true hlt⟩
  · decide

/-- C7: registering a library whose canonical name is already present fails
with the duplicate-library error before any registry state is touched; the
caller's registry still reflects only the first registration. -/
theorem claimC7 (r : Registry) (lib : Library)
    (h : r.libraryTable.any (fun kv => decide (kv.1 = lib.name)) = true) :
    defineLibrary r lib = Except.error ("ERROR: Library " ++ lib.name ++ " defined twice.") := by
  unfold defineLibrary
  simp [h]

/-- The registry state after successfully registering the python record into
an empty registry. -/
def pythonLib : Library :=
  mkLibrary "python" LibType.DYNAMIC (some "python36") (some "python36") none none
    ["Python.h"] [] [] true

/-- C7 witness: the first registration succeeds and fills the derived
indices; the second registration of the same canonical name errors out. -/
theorem claimC7_witness :
    defineLibrary ⟨[], [], []⟩ pythonLib
      = Except.ok ⟨[("python", pythonLib)], [("Python.h", ["python"])], []⟩ ∧
    defineLibrary ⟨[("python", pythonLib)], [("Python.h", ["python"])], []⟩ pythonLib
      = Except.error "ERROR: Library python defined twice." :=
  ⟨rfl, claimC7 ⟨[("python", pythonLib)], [("Python.h", ["python"])], []⟩ pythonLib (by decide)⟩

/-- C8: when no exact stem (primary or fallback) exists in any search
directory and no wildcard candidate has a parsable version, findLibrary
returns the bare unversioned stem lib<name><ext> — no directory prefix, no
error; the locator is a total function. -/
theorem claimC8 (name : String) (type : LibType) (isDarwin : Bool)
    (paths : List String) (fs : FileSystem)
    (hstem : ∀ p ∈ paths, fileIn fs p ("lib" ++ name ++ extOf type isDarwin) = false)
    (hstem2 : ∀ p ∈ paths, ∀ e2, ext2Of type isDarwin = some e2 →
      fileIn fs p ("lib" ++ name ++ e2) = false)
    (hvers : ∀ p ∈ paths, ∀ f ∈ globDir fs p ("lib" ++ name ++ "-") (extOf type isDarwin),
      parsedVersion f = none) :
    findLibrary name type isDarwin paths fs = "lib" ++ name ++ extOf type isDarwin := by
  have hexact : findExact fs ("lib" ++ name ++ extOf type isDarwin)
      ((ext2Of type isDarwin).map (fun e => "lib" ++ name ++ e)) paths = none := by
    refine findExact_eq_none fs _ _ paths hstem ?_
    intro p hp l2 hl2
    cases he2 : ext2Of type isDarwin with
    | none => rw [he2] at hl2; cases hl2
    | some e2 =>
      rw [he2] at hl2
      have : l2 = "lib" ++ name ++ e2 := by
        simpa using hl2.symm
      rw [this]
      exact hstem2 p hp e2 he2
  have hscan : wildcardScan fs ("lib" ++ name ++ "-") (extOf type isDarwin) paths
      = (decZero, none) := by
    refine wildcardScan_stays fs _ _ paths ?_
    intro p hp f hf v hv
    rw [hvers p hp f hf] at hv
    cases hv
  unfold findLibrary
  rw [hexact, hscan]

/-- C8 witness: an unrelated directory entry, nothing matches, the bare stem
comes back. -/
theorem claimC8_witness :
    findLibrary "foo" LibType.DYNAMIC true ["d"] ⟨[("d", ["readme.txt"])]⟩ = "libfoo.dylib" := by
  refine claimC8 "foo" LibType.DYNAMIC true ["d"] ⟨[("d", ["readme.txt"])]⟩ ?_ ?_ ?_
  · intro p hp
    rw [List.mem_singleton.mp hp]
    decide
  · intro p hp e2 he2
    rw [show ext2Of LibType.DYNAMIC true = some ".so" from rfl] at he2
    injection he2 with h
    rw [List.mem_singleton.mp hp, ← h]
    decide
  · intro p hp f hf
    rw [List.mem_singleton.mp hp] at hf
    have hempty : globDir ⟨[("d", ["readme.txt"])]⟩ "d" ("lib" ++ "foo" ++ "-")
        (extOf LibType.DYNAMIC true) = [] := by decide
    rw [hempty] at hf
    cases hf

/-- C9: the constructor enforces the invariant type = STATIC implies
deploy = false regardless of the deploy argument, and leaves the deploy
argument unchanged for every non-STATIC type. -/
theorem claimC9 (name : String) (type : LibType)
    (rl dl rf df : Option String) (hl sl dep : List String) (deploy : Bool) :
    (mkLibrary name LibType.STATIC rl dl rf df hl sl dep deploy).deploy = false ∧
    (type ≠ LibType.STATIC → (mkLibrary name type rl dl rf df hl sl dep deploy).deploy = deploy) := by
  constructor
  · rfl
  · intro h
    unfold mkLibrary
    simp [h]

/-- C10: the wildcard phase only keeps a candidate whose parsed version is
strictly greater than 0 (bestVersion starts at 0 and the test is strict), so
when every candidate parses non-positive (or not at all) and no exact stem
exists, the scan selects nothing and findLibrary falls back to the generic
unversioned stem even though versioned files matched the glob. -/
theorem claimC10 (name : String) (type : LibType) (isDarwin : Bool)
    (paths : List String) (fs : FileSystem)
    (hstem : ∀ p ∈ paths, fileIn fs p ("lib" ++ name ++ extOf type isDarwin) = false)
    (hstem2 : ∀ p ∈ paths, ∀ e2, ext2Of type isDarwin = some e2 →
      fileIn fs p ("lib" ++ name ++ e2) = false)
    (hvers : ∀ p ∈ paths, ∀ f ∈ globDir fs p ("lib" ++ name ++ "-") (extOf type isDarwin),
      ∀ v, parsedVersion f = some v → v.num ≤ 0) :
    (wildcardScan fs ("lib" ++ name ++ "-") (extOf type isDarwin) paths).2 = none ∧
    findLibrary name type isDarwin paths fs = "lib" ++ name ++ extOf type isDarwin := by
  have hscan : wildcardScan fs ("lib" ++ name ++ "-") (extOf type isDarwin) paths
      = (decZero, none) := wildcardScan_stays fs _ _ paths hvers
  have hexact : findExact fs ("lib" ++ name ++ extOf type isDarwin)
      ((ext2Of type isDarwin).map (fun e => "lib" ++ name ++ e)) paths = none := by
    refine findExact_eq_none fs _ _ paths hstem ?_
    intro p hp l2 hl2
    cases he2 : ext2Of type isDarwin with
    | none => rw [he2] at hl2; cases hl2
    | some e2 =>
      rw [he2] at hl2
      have : l2 = "lib" ++ name ++ e2 := by
        simpa using hl2.symm
      rw [this]
      exact hstem2 p hp e2 he2
  refine ⟨by rw [hscan], ?_⟩
  unfold findLibrary
  rw [hexact, hscan]

/-- C10 witness: libfoo-0.0.so matches the versioned glob and parses as 0,
which is not strictly greater than 0, so the generic stem libfoo.so comes
back although a versioned match exists on disk. -/
theorem claimC10_witness :
    "d/libfoo-0.0.so" ∈ globDir ⟨[("d", ["libfoo-0.0.so"])]⟩ "d" "libfoo-" ".so" ∧
    findLibrary "foo" LibType.DYNAMIC false ["d"] ⟨[("d", ["libfoo-0.0.so"])]⟩ = "libfoo.so" := by
  refine ⟨by decide, ?_⟩
  refine (claimC10 "foo" LibType.DYNAMIC false ["d"] ⟨[("d", ["libfoo-0.0.so"])]⟩ ?_ ?_ ?_).2
  · intro p hp
    rw [List.mem_singleton.mp hp]
    decide
  · intro p hp e2 he2
    rw [show ext2Of LibType.DYNAMIC false = none from rfl] at he2
    cases he2
  · intro p hp f hf v hv
    rw [List.mem_singleton.mp hp] at hf
    have hone : globDir ⟨[("d", ["libfoo-0.0.so"])]⟩ "d" ("lib" ++ "foo" ++ "-")
        (extOf LibType.DYNAMIC false) = ["d/libfoo-0.0.so"] := by decide
    rw [hone] at hf
    rw [List.mem_singleton.mp hf] at hv
    have hval : parsedVersion "d/libfoo-0.0.so" = some ⟨0, 10⟩ := by decide
    rw [hval] at hv
    cases hv
    decide

end Ice
